import Mathlib

/-!
# voidint/wechat: cache client, SSH tunnel dialer and updatable-message client

A shallow embedding of `cache/redis.go` and `miniprogram/message/updatable_msg.go`.

Calls that leave the repository (the redis client, the file system, the ssh
library, the token provider, the HTTP helpers) are modelled as functions of the
history of calls made so far; every such call appends one event to the history.
A Go `error` is `Option GoError` (`none` is `nil`), a Go `string` is a list of
bytes, a Go pointer is an `Option`.
-/

namespace Wechat

/-! ## Go base types -/

/-- Go `string` and `[]byte`: an arbitrary sequence of bytes. -/
abbrev GoString := List UInt8

/-- The bytes of a string literal (UTF-8). -/
def str (s : String) : GoString := s.data.flatMap String.utf8EncodeChar

/-- A non-nil Go `error` value. -/
structure GoError where
  msg : GoString
deriving DecidableEq, Repr

/-- Go `int64` arithmetic wraps modulo 2^64 into the signed range. -/
def wrapInt64 (x : Int) : Int := (x + 9223372036854775808) % 18446744073709551616 - 9223372036854775808

/-- The values an `int64` (and `int` on a 64-bit platform) can hold. -/
def isInt64 (x : Int) : Prop := -9223372036854775808 ≤ x ∧ x ≤ 9223372036854775807

instance (x : Int) : Decidable (isInt64 x) := by unfold isInt64; infer_instance

/-! ## unicode/utf8 -/

namespace utf8

/-- `utf8.RuneError`, U+FFFD. -/
def RuneError : Nat := 0xFFFD

/-- A continuation byte, 0x80..0xBF. -/
def isCont (b : UInt8) : Bool := 0x80 ≤ b.toNat && b.toNat ≤ 0xBF

/-- `utf8.DecodeRune`: the first rune of `p` and its width in bytes; an invalid
encoding gives `(RuneError, 1)`, an empty input `(RuneError, 0)`. -/
def DecodeRune (p : List UInt8) : Nat × Nat :=
  match p with
  | [] => (RuneError, 0)
  | p0 :: rest =>
    let x := p0.toNat
    if x < 0x80 then (x, 1)
    else if x < 0xC2 then (RuneError, 1)
    else if x < 0xE0 then
      match rest with
      | b1 :: _ =>
        if isCont b1 then (x % 32 * 64 + b1.toNat % 64, 2) else (RuneError, 1)
      | _ => (RuneError, 1)
    else if x < 0xF0 then
      match rest with
      | b1 :: b2 :: _ =>
        let lo := if x = 0xE0 then 0xA0 else 0x80
        let hi := if x = 0xED then 0x9F else 0xBF
        if lo ≤ b1.toNat && b1.toNat ≤ hi && isCont b2 then
          (x % 16 * 4096 + b1.toNat % 64 * 64 + b2.toNat % 64, 3)
        else (RuneError, 1)
      | _ => (RuneError, 1)
    else if x < 0xF5 then
      match rest with
      | b1 :: b2 :: b3 :: _ =>
        let lo := if x = 0xF0 then 0x90 else 0x80
        let hi := if x = 0xF4 then 0x8F else 0xBF
        if lo ≤ b1.toNat && b1.toNat ≤ hi && isCont b2 && isCont b3 then
          (x % 8 * 262144 + b1.toNat % 64 * 4096 + b2.toNat % 64 * 64 + b3.toNat % 64, 4)
        else (RuneError, 1)
      | _ => (RuneError, 1)
    else (RuneError, 1)

/-- `utf8.EncodeRune`: the UTF-8 encoding of a rune; surrogates and values above
U+10FFFF are encoded as `RuneError`. -/
def EncodeRune (r : Nat) : List UInt8 :=
  if r < 0x80 then [UInt8.ofNat r]
  else if r < 0x800 then [UInt8.ofNat (0xC0 + r / 64), UInt8.ofNat (0x80 + r % 64)]
  else if 0x10FFFF < r ∨ (0xD800 ≤ r ∧ r ≤ 0xDFFF) then [0xEF, 0xBF, 0xBD]
  else if r < 0x10000 then
    [UInt8.ofNat (0xE0 + r / 4096), UInt8.ofNat (0x80 + r / 64 % 64), UInt8.ofNat (0x80 + r % 64)]
  else
    [UInt8.ofNat (0xF0 + r / 262144), UInt8.ofNat (0x80 + r / 4096 % 64),
      UInt8.ofNat (0x80 + r / 64 % 64), UInt8.ofNat (0x80 + r % 64)]

/-- The runes of `p`, decoded one after the other as a `for range` loop over a
string does: every invalid byte yields one `RuneError`. -/
def runes : Nat → List UInt8 → List Nat
  | 0, _ => []
  | _ + 1, [] => []
  | fuel + 1, p0 :: rest =>
    let d := DecodeRune (p0 :: rest)
    d.1 :: runes fuel (rest.drop (d.2 - 1))

/-- `utf8.Valid`: no position of `p` decodes to `(RuneError, 1)`. -/
def Valid : Nat → List UInt8 → Bool
  | 0, _ => true
  | _ + 1, [] => true
  | fuel + 1, p0 :: rest =>
    let d := DecodeRune (p0 :: rest)
    !(d.1 == RuneError && d.2 == 1) && Valid fuel (rest.drop (d.2 - 1))

def ValidString (s : GoString) : Bool := Valid s.length s

end utf8

/-! ## Handles and library types -/

/-- `context.Context`: an opaque handle. -/
structure Context where
  id : Nat
deriving DecidableEq, Repr

/-- `net.Conn`: an opaque handle of an open stream. -/
structure Conn where
  id : Nat
deriving DecidableEq, Repr

/-- `*ssh.Client` when non-nil: an opaque handle of an established session. -/
structure SSHClient where
  id : Nat
deriving DecidableEq, Repr

/-- `ssh.Signer`: an opaque handle of a parsed private key. -/
structure Signer where
  id : Nat
deriving DecidableEq, Repr

/-- `ssh.AuthMethod` values built by the source: `ssh.Password` and `ssh.PublicKeys`. -/
inductive SSHAuth where
  | Password (secret : GoString)
  | PublicKeys (signer : Option Signer)
deriving DecidableEq, Repr

/-- `ssh.HostKeyCallback` values built by the source. -/
inductive HostKeyCallback where
  | InsecureIgnoreHostKey
deriving DecidableEq, Repr

/-- `ssh.ClientConfig`, the fields the source sets. -/
structure ClientConfig where
  User : GoString
  Auth : List SSHAuth
  HostKeyCallback : HostKeyCallback
deriving DecidableEq, Repr

/-- `SSHAuthMethod` is a `uint8`. -/
abbrev SSHAuthMethod := UInt8

def PubKeyAuth : SSHAuthMethod := 1

def PwdAuth : SSHAuthMethod := 2

/-- `OverSSH`: the gateway description. `Port` is a Go `int`. -/
structure OverSSH where
  Host : GoString
  Port : Int
  AuthMethod : SSHAuthMethod
  Username : GoString
  Password : GoString
  KeyFile : GoString
deriving DecidableEq, Repr

/-- A Go function value of dialer type: nil, a caller-supplied function (an opaque
handle), or the closure returned by `OverSSH.MakeDialer` for a given receiver. -/
inductive DialerFunc where
  | nil
  | custom (id : Nat)
  | overSSH (s : OverSSH)
deriving DecidableEq, Repr

/-- `redis.UniversalOptions`, the fields the source sets. `IdleTimeout` is a
`time.Duration` in nanoseconds. -/
structure UniversalOptions where
  Addrs : List GoString
  DB : Int
  Password : GoString
  IdleTimeout : Int
  MinIdleConns : Int
  Dialer : DialerFunc
deriving DecidableEq, Repr

/-- A redis reply held in an `interface{}` (non-nil). -/
inductive Reply where
  | str (s : GoString)
  | int (n : Int)
deriving DecidableEq, Repr

/-- A call that leaves the repository. -/
inductive Event where
  | newUniversalClient (o : UniversalOptions)
  | redisDo (ctx : Context) (args : List GoString)
  | redisExists (ctx : Context) (keys : List GoString)
  | readFile (name : GoString)
  | parsePrivateKey (k : GoString)
  | sshDial (network addr : GoString) (config : ClientConfig)
  | clientDial (client : Option SSHClient) (network addr : GoString)
deriving DecidableEq, Repr

abbrev History := List Event

/-- `redis.UniversalClient`, the methods the embedded operations call, each
followed by `.Result()`: the pair (value, error) of the command. -/
structure UniversalClient where
  Do : History → Context → List GoString → Option Reply × Option GoError
  Exists : History → Context → List GoString → Int × Option GoError

/-- What a call of `(*ssh.Client).Dial` can do: return its pair, or panic. -/
inductive DialOutcome where
  | ret (conn : Option Conn) (err : Option GoError)
  | panic
deriving DecidableEq, Repr

/-- The world outside the repository, as seen by the cache package. -/
structure Env where
  NewUniversalClient : History → UniversalOptions → UniversalClient
  ReadFile : History → GoString → GoString × Option GoError
  ParsePrivateKey : History → GoString → Option Signer × Option GoError
  sshDial : History → GoString → GoString → ClientConfig → Option SSHClient × Option GoError
  clientDial : History → Option SSHClient → GoString → GoString → DialOutcome

/-! ## cache/redis.go -/

namespace cache

/-- `time.Second`, in nanoseconds. -/
def Second : Int := 1000000000

structure Redis where
  ctx : Context
  conn : UniversalClient

structure RedisOpts where
  Host : GoString
  Password : GoString
  Database : Int
  MaxIdle : Int
  MaxActive : Int
  IdleTimeout : Int
  Dialer : DialerFunc
deriving DecidableEq, Repr

def NewRedis (env : Env) (ctx : Context) (opts : RedisOpts) (h : History) : Redis × History :=
  let o : UniversalOptions :=
    { Addrs := [opts.Host]
      DB := opts.Database
      Password := opts.Password
      IdleTimeout := wrapInt64 (Second * opts.IdleTimeout)
      MinIdleConns := opts.MaxIdle
      Dialer := opts.Dialer }
  let conn := env.NewUniversalClient h o
  ({ ctx := ctx, conn := conn }, h ++ [Event.newUniversalClient o])

def NewRedisOverSSH (env : Env) (ctx : Context) (opts : RedisOpts) (overSSH : OverSSH)
    (h : History) : Redis × History :=
  let o : UniversalOptions :=
    { Addrs := [opts.Host]
      DB := opts.Database
      Password := opts.Password
      IdleTimeout := wrapInt64 (Second * opts.IdleTimeout)
      MinIdleConns := opts.MaxIdle
      Dialer := DialerFunc.overSSH overSSH }
  let conn := env.NewUniversalClient h o
  ({ ctx := ctx, conn := conn }, h ++ [Event.newUniversalClient o])

def Redis.SetConn (r : Redis) (conn : UniversalClient) : Redis := { r with conn := conn }

def Redis.SetRedisCtx (r : Redis) (ctx : Context) : Redis := { r with ctx := ctx }

def Redis.GetContext (r : Redis) (ctx : Context) (key : GoString) (h : History) :
    Option Reply × History :=
  let (result, err) := r.conn.Do h ctx [str "GET", key]
  let h1 := h ++ [Event.redisDo ctx [str "GET", key]]
  if err ≠ none then
    (none, h1)
  else
    (result, h1)

def Redis.Get (r : Redis) (key : GoString) (h : History) : Option Reply × History :=
  r.GetContext r.ctx key h

def Redis.IsExistContext (r : Redis) (ctx : Context) (key : GoString) (h : History) :
    Bool × History :=
  let (result, _) := r.conn.Exists h ctx [key]
  (decide (result > 0), h ++ [Event.redisExists ctx [key]])

def Redis.IsExist (r : Redis) (key : GoString) (h : History) : Bool × History :=
  r.IsExistContext r.ctx key h

/-- `fmt.Sprintf("%s:%d", host, port)`: the host bytes, a colon, the decimal port. -/
def sprintfHostPort (host : GoString) (port : Int) : GoString :=
  host ++ str ":" ++ str (toString port)

def OverSSH.DialWithPassword (env : Env) (s : OverSSH) (h : History) :
    (Option SSHClient × Option GoError) × History :=
  let addr := sprintfHostPort s.Host s.Port
  let config : ClientConfig :=
    { User := s.Username
      Auth := [SSHAuth.Password s.Password]
      HostKeyCallback := HostKeyCallback.InsecureIgnoreHostKey }
  (env.sshDial h (str "tcp") addr config, h ++ [Event.sshDial (str "tcp") addr config])

def OverSSH.DialWithKeyFile (env : Env) (s : OverSSH) (h : History) :
    (Option SSHClient × Option GoError) × History :=
  let (k, err) := env.ReadFile h s.KeyFile
  let h1 := h ++ [Event.readFile s.KeyFile]
  if err ≠ none then
    ((none, err), h1)
  else
    let (signer, err) := env.ParsePrivateKey h1 k
    let h2 := h1 ++ [Event.parsePrivateKey k]
    if err ≠ none then
      ((none, err), h2)
    else
      let addr := sprintfHostPort s.Host s.Port
      let config : ClientConfig :=
        { User := s.Username
          Auth := [SSHAuth.PublicKeys signer]
          HostKeyCallback := HostKeyCallback.InsecureIgnoreHostKey }
      (env.sshDial h2 (str "tcp") addr config, h2 ++ [Event.sshDial (str "tcp") addr config])

/-- The `switch s.AuthMethod` of the dialer: `sshclient` and `err` start as nil and
are assigned by the matching case, if any. -/
def OverSSH.dialSession (env : Env) (s : OverSSH) (h : History) :
    (Option SSHClient × Option GoError) × History :=
  if s.AuthMethod = PwdAuth then
    OverSSH.DialWithPassword env s h
  else if s.AuthMethod = PubKeyAuth then
    OverSSH.DialWithKeyFile env s h
  else
    ((none, none), h)

def OverSSH.MakeDialer (env : Env) (s : OverSSH) :
    Context → GoString → GoString → History → DialOutcome × History :=
  fun _ctx network addr h =>
    let ((sshclient, err), h1) := OverSSH.dialSession env s h
    if err ≠ none then
      (DialOutcome.ret none err, h1)
    else
      (env.clientDial h1 sshclient network addr, h1 ++ [Event.clientDial sshclient network addr])

/-- The event of a session establishment (`ssh.Dial`). -/
def isSSHDial : Event → Bool
  | Event.sshDial _ _ _ => true
  | _ => false

/-- The event of a channel open (`(*ssh.Client).Dial`). -/
def isClientDial : Event → Bool
  | Event.clientDial _ _ _ => true
  | _ => false

/-- The dialer returned an error: a returned pair whose error is non-nil. -/
def returnsError : DialOutcome → Bool
  | DialOutcome.ret _ (some _) => true
  | _ => false

/-- The session establishment the dialer issues for password authentication. -/
def passwordDialEvent (s : OverSSH) : Event :=
  Event.sshDial (str "tcp") (sprintfHostPort s.Host s.Port)
    { User := s.Username
      Auth := [SSHAuth.Password s.Password]
      HostKeyCallback := HostKeyCallback.InsecureIgnoreHostKey }

end cache

/-! ## miniprogram/message/updatable_msg.go -/

namespace message

def createActivityURL : GoString :=
  str "https://api.weixin.qq.com/cgi-bin/message/wxopen/activityid/create?access_token=%s"

def setUpdatableMsgURL : GoString :=
  str "https://api.weixin.qq.com/cgi-bin/message/wxopen/updatablemsg/send?access_token=%s"

/-- `fmt.Sprintf(format, a)` for a format whose only verb is one `%s`. -/
def sprintfS : GoString → GoString → GoString
  | 0x25 :: 0x73 :: rest, a => a ++ rest
  | c :: rest, a => c :: sprintfS rest a
  | [], _ => []

/-- `UpdatableTargetState` is a Go `int`. -/
abbrev UpdatableTargetState := Int

def TargetStateNotStarted : UpdatableTargetState := 0

def TargetStateStarted : UpdatableTargetState := 1

def TargetStateFinished : UpdatableTargetState := 2

/-- Modelled from the spec: `util.CommonError`, whose declaration is outside the
given sources; the platform's error code and message. -/
structure CommonError where
  ErrCode : Int
  ErrMsg : GoString
deriving DecidableEq, Repr

structure CreateActivityIDResponse where
  CommonError : CommonError
  ActivityID : GoString
  ExpirationTime : Int
deriving DecidableEq, Repr

/-- The zero value of `CreateActivityIDResponse`. -/
def CreateActivityIDResponse.zero : CreateActivityIDResponse :=
  { CommonError := { ErrCode := 0, ErrMsg := [] }, ActivityID := [], ExpirationTime := 0 }

structure UpdatableMsgParameter where
  Name : GoString
  Value : GoString
deriving DecidableEq, Repr

/-- `ParameterList` is a slice: `none` is the nil slice. -/
structure UpdatableMsgTemplate where
  ParameterList : Option (List UpdatableMsgParameter)
deriving DecidableEq, Repr

structure SendUpdatableMsgReq where
  ActivityID : GoString
  TemplateInfo : UpdatableMsgTemplate
  TargetState : UpdatableTargetState
deriving DecidableEq, Repr

/-- A call that leaves the package. -/
inductive Event where
  | GetAccessToken
  | HTTPGet (uri : GoString)
  | PostJSON (uri : GoString) (obj : SendUpdatableMsgReq)
  | DecodeWithError (response : GoString) (apiName : GoString)
  | DecodeWithCommonError (response : GoString) (apiName : GoString)
deriving DecidableEq, Repr

abbrev History := List Event

/-- The token provider of the embedded context and the helpers of package `util`,
which are outside the given sources. `DecodeWithError` receives the current
value of the object it decodes into and returns the updated one. -/
structure Env where
  GetAccessToken : History → GoString × Option GoError
  HTTPGet : History → GoString → GoString × Option GoError
  PostJSON : History → GoString → SendUpdatableMsgReq → GoString × Option GoError
  DecodeWithError : History → GoString → CreateActivityIDResponse → GoString →
    CreateActivityIDResponse × Option GoError
  DecodeWithCommonError : History → GoString → GoString → Option GoError

def CreateActivityID (env : Env) (h : History) :
    (CreateActivityIDResponse × Option GoError) × History :=
  let res := CreateActivityIDResponse.zero
  let (accessToken, err) := env.GetAccessToken h
  let h1 := h ++ [Event.GetAccessToken]
  if err ≠ none then
    ((res, err), h1)
  else
    let uri := sprintfS createActivityURL accessToken
    let (response, err) := env.HTTPGet h1 uri
    let h2 := h1 ++ [Event.HTTPGet uri]
    if err ≠ none then
      ((res, err), h2)
    else
      (env.DecodeWithError h2 response res (str "CreateActivityID"),
        h2 ++ [Event.DecodeWithError response (str "CreateActivityID")])

def SetUpdatableMsg (env : Env) (activityID : GoString) (targetState : UpdatableTargetState)
    (template : UpdatableMsgTemplate) (h : History) : Option GoError × History :=
  let (accessToken, err) := env.GetAccessToken h
  let h1 := h ++ [Event.GetAccessToken]
  if err ≠ none then
    (err, h1)
  else
    let uri := sprintfS setUpdatableMsgURL accessToken
    let data : SendUpdatableMsgReq :=
      { ActivityID := activityID
        TargetState := targetState
        TemplateInfo := template }
    let (response, err) := env.PostJSON h1 uri data
    let h2 := h1 ++ [Event.PostJSON uri data]
    if err ≠ none then
      (err, h2)
    else
      (env.DecodeWithCommonError h2 response (str "SendUpdatableMsg"),
        h2 ++ [Event.DecodeWithCommonError response (str "SendUpdatableMsg")])

end message

/-! ## encoding/json applied to `SendUpdatableMsgReq` -/

namespace json

open message

/-- A JSON value. A string is a sequence of Unicode code points, an object keeps
its members in order. -/
inductive Value where
  | null
  | number (n : Int)
  | string (runes : List Nat)
  | array (elems : List Value)
  | object (members : List (String × Value))

/-- A Go string as `encoding/json` writes it: the runes of the string, each
invalid byte replaced by U+FFFD. -/
def encodeString (s : GoString) : Value := Value.string (utf8.runes s.length s)

/-- A JSON string stored into a Go string: the UTF-8 encoding of its runes. -/
def decodeString (rs : List Nat) : GoString := rs.flatMap utf8.EncodeRune

/-- Unmarshal into a `string` field: null leaves it, a string sets it, anything
else is an error. -/
def unmarshalString (v : Value) (cur : GoString) : Option GoString :=
  match v with
  | Value.null => some cur
  | Value.string rs => some (decodeString rs)
  | _ => none

/-- Unmarshal into an `int` field: null leaves it, a number in range sets it. -/
def unmarshalInt (v : Value) (cur : Int) : Option Int :=
  match v with
  | Value.null => some cur
  | Value.number n => if isInt64 n then some n else none
  | _ => none

def marshalParameter (p : UpdatableMsgParameter) : Value :=
  Value.object [("name", encodeString p.Name), ("value", encodeString p.Value)]

def marshalTemplate (t : UpdatableMsgTemplate) : Value :=
  Value.object [("parameter_list",
    match t.ParameterList with
    | none => Value.null
    | some ps => Value.array (ps.map marshalParameter))]

/-- `json.Marshal` of a `SendUpdatableMsgReq`: the fields in declaration order
under their tags. -/
def Marshal (r : SendUpdatableMsgReq) : Value :=
  Value.object [("activity_id", encodeString r.ActivityID),
    ("template_info", marshalTemplate r.TemplateInfo),
    ("target_state", Value.number r.TargetState)]

def unmarshalParameterMember (cur : UpdatableMsgParameter) (m : String × Value) :
    Option UpdatableMsgParameter :=
  if m.1 = "name" then
    (unmarshalString m.2 cur.Name).map (fun s => { cur with Name := s })
  else if m.1 = "value" then
    (unmarshalString m.2 cur.Value).map (fun s => { cur with Value := s })
  else
    some cur

def unmarshalParameter (v : Value) (cur : UpdatableMsgParameter) : Option UpdatableMsgParameter :=
  match v with
  | Value.null => some cur
  | Value.object ms => ms.foldlM unmarshalParameterMember cur
  | _ => none

/-- The elements of an array appended to an emptied slice, each decoded into a
zero `UpdatableMsgParameter`. -/
def unmarshalElems : List Value → Option (List UpdatableMsgParameter)
  | [] => some []
  | e :: es =>
    match unmarshalParameter e { Name := [], Value := [] }, unmarshalElems es with
    | some p, some ps => some (p :: ps)
    | _, _ => none

/-- Unmarshal into the slice field: null sets it to nil, an array replaces it. -/
def unmarshalParameterList (v : Value) : Option (Option (List UpdatableMsgParameter)) :=
  match v with
  | Value.null => some none
  | Value.array es => (unmarshalElems es).map some
  | _ => none

def unmarshalTemplateMember (cur : UpdatableMsgTemplate) (m : String × Value) :
    Option UpdatableMsgTemplate :=
  if m.1 = "parameter_list" then
    (unmarshalParameterList m.2).map (fun l => { cur with ParameterList := l })
  else
    some cur

def unmarshalTemplate (v : Value) (cur : UpdatableMsgTemplate) : Option UpdatableMsgTemplate :=
  match v with
  | Value.null => some cur
  | Value.object ms => ms.foldlM unmarshalTemplateMember cur
  | _ => none

def unmarshalReqMember (cur : SendUpdatableMsgReq) (m : String × Value) :
    Option SendUpdatableMsgReq :=
  if m.1 = "activity_id" then
    (unmarshalString m.2 cur.ActivityID).map (fun s => { cur with ActivityID := s })
  else if m.1 = "template_info" then
    (unmarshalTemplate m.2 cur.TemplateInfo).map (fun t => { cur with TemplateInfo := t })
  else if m.1 = "target_state" then
    (unmarshalInt m.2 cur.TargetState).map (fun n => { cur with TargetState := n })
  else
    some cur

/-- `json.Unmarshal` into a `SendUpdatableMsgReq` holding `cur`; `none` is an error. -/
def Unmarshal (v : Value) (cur : SendUpdatableMsgReq) : Option SendUpdatableMsgReq :=
  match v with
  | Value.null => some cur
  | Value.object ms => ms.foldlM unmarshalReqMember cur
  | _ => none

/-- The zero value a fresh `SendUpdatableMsgReq` holds. -/
def zeroReq : SendUpdatableMsgReq :=
  { ActivityID := [], TemplateInfo := { ParameterList := none }, TargetState := 0 }

/-- Encode, then decode into a fresh value. -/
def roundTrip (r : SendUpdatableMsgReq) : Option SendUpdatableMsgReq :=
  Unmarshal (Marshal r) zeroReq

/-- Every string of the request is valid UTF-8. -/
def validStrings (r : SendUpdatableMsgReq) : Prop :=
  utf8.ValidString r.ActivityID = true ∧
    ∀ ps, r.TemplateInfo.ParameterList = some ps →
      ∀ p ∈ ps, utf8.ValidString p.Name = true ∧ utf8.ValidString p.Value = true

/-- Modelled from the spec: the body `util.PostJSON` sends, which is outside the
given sources; the spec says the POST carries the JSON encoding of the object
under its field tags. -/
def requestBody (obj : SendUpdatableMsgReq) : Value := Marshal obj

/-- The request a posted body denotes: the body decoded into a fresh value. -/
def decodeBody (body : Value) : Option SendUpdatableMsgReq := Unmarshal body zeroReq

end json

/-! ## Concrete inputs -/

namespace sample

/-- A client whose EXISTS reports one key together with an error, as a command
does when a hook fails after the reply was read. -/
def hookedClient : UniversalClient :=
  { Do := fun _ _ _ => (none, some { msg := str "hook" })
    Exists := fun _ _ _ => (1, some { msg := str "hook" }) }

/-- A client over an empty store that answers every command. -/
def emptyClient : UniversalClient :=
  { Do := fun _ _ _ => (none, none)
    Exists := fun _ _ _ => (0, none) }

/-- A world where files are missing and every connection attempt succeeds. -/
def env : Env :=
  { NewUniversalClient := fun _ _ => emptyClient
    ReadFile := fun _ _ => ([], some { msg := str "no such file" })
    ParsePrivateKey := fun _ _ => (none, some { msg := str "no key found" })
    sshDial := fun h _ _ _ => (some { id := h.length }, none)
    clientDial := fun h c _ _ =>
      match c with
      | some _ => DialOutcome.ret (some { id := h.length }) none
      | none => DialOutcome.panic }

def opts : cache.RedisOpts :=
  { Host := str "127.0.0.1:6379"
    Password := []
    Database := 0
    MaxIdle := 2
    MaxActive := 8
    IdleTimeout := 300
    Dialer := DialerFunc.nil }

def gateway : OverSSH :=
  { Host := str "gw"
    Port := 22
    AuthMethod := PwdAuth
    Username := str "u"
    Password := str "p"
    KeyFile := str "/k" }

/-- The same gateway with public-key authentication. -/
def keyGateway : OverSSH := { gateway with AuthMethod := PubKeyAuth }

/-- The same gateway with the zero value of `AuthMethod`. -/
def zeroGateway : OverSSH := { gateway with AuthMethod := 0 }

/-- A platform that hands out a token and answers every request. -/
def msgEnv : message.Env :=
  { GetAccessToken := fun _ => (str "TOKEN", none)
    HTTPGet := fun _ _ => (str "{}", none)
    PostJSON := fun _ _ _ => (str "{}", none)
    DecodeWithError := fun _ _ res _ => ({ res with ActivityID := str "A1" }, none)
    DecodeWithCommonError := fun _ _ _ => none }

/-- A platform whose token provider fails. -/
def noTokenEnv : message.Env :=
  { msgEnv with GetAccessToken := fun _ => ([], some { msg := str "token expired" }) }

/-- A request whose parameter value is the single byte 0xFF, not valid UTF-8. -/
def invalidReq : message.SendUpdatableMsgReq :=
  { ActivityID := str "A1"
    TemplateInfo := { ParameterList := some [{ Name := str "member_count", Value := [0xFF] }] }
    TargetState := 1 }

/-- A request with three parameters, two of them under the same name. -/
def validReq : message.SendUpdatableMsgReq :=
  { ActivityID := str "A1"
    TemplateInfo :=
      { ParameterList := some [{ Name := str "member_count", Value := str "2" },
          { Name := str "room_limit", Value := str "中" },
          { Name := str "member_count", Value := [] }] }
    TargetState := 1 }

/-- A world whose ssh library rejects the network "udp" before it touches the
session, and panics on a nil session otherwise. -/
def udpEnv : Env :=
  { env with clientDial := fun h c network _ =>
      if network = str "udp" then
        DialOutcome.ret none (some { msg := str "ssh: unsupported protocol: udp" })
      else
        match c with
        | some _ => DialOutcome.ret (some { id := h.length }) none
        | none => DialOutcome.panic }

end sample

/-! ## Lemmas: UTF-8 decoding followed by encoding -/

theorem ofNat_toNat (b : UInt8) : UInt8.ofNat b.toNat = b := by
  apply UInt8.ext
  show b.toNat % 256 = b.toNat
  have := UInt8.toNat_lt b
  omega


theorem EncodeRune_two (x b1 : Nat) (h1 : 0xC2 ≤ x) (h2 : x < 0xE0) (h3 : 0x80 ≤ b1) (h4 : b1 ≤ 0xBF) :
    utf8.EncodeRune (x % 32 * 64 + b1 % 64) = [UInt8.ofNat x, UInt8.ofNat b1] := by
  have e1 : ¬ (x % 32 * 64 + b1 % 64 < 0x80) := by omega
  have e2 : x % 32 * 64 + b1 % 64 < 0x800 := by omega
  have e3 : 0xC0 + (x % 32 * 64 + b1 % 64) / 64 = x := by omega
  have e4 : 0x80 + (x % 32 * 64 + b1 % 64) % 64 = b1 := by omega
  unfold utf8.EncodeRune
  rw [if_neg e1, if_pos e2, e3, e4]

theorem EncodeRune_three (x b1 b2 : Nat) (h1 : 0xE0 ≤ x) (h2 : x < 0xF0)
    (h3 : (if x = 0xE0 then 0xA0 else 0x80) ≤ b1) (h4 : b1 ≤ (if x = 0xED then 0x9F else 0xBF))
    (h5 : 0x80 ≤ b2) (h6 : b2 ≤ 0xBF) :
    utf8.EncodeRune (x % 16 * 4096 + b1 % 64 * 64 + b2 % 64)
      = [UInt8.ofNat x, UInt8.ofNat b1, UInt8.ofNat b2] := by
  have e1 : ¬ (x % 16 * 4096 + b1 % 64 * 64 + b2 % 64 < 0x80) := by split_ifs at h3 h4 <;> omega
  have e2 : ¬ (x % 16 * 4096 + b1 % 64 * 64 + b2 % 64 < 0x800) := by split_ifs at h3 h4 <;> omega
  have e3 : ¬ (0x10FFFF < x % 16 * 4096 + b1 % 64 * 64 + b2 % 64 ∨
      (0xD800 ≤ x % 16 * 4096 + b1 % 64 * 64 + b2 % 64 ∧
        x % 16 * 4096 + b1 % 64 * 64 + b2 % 64 ≤ 0xDFFF)) := by
    split_ifs at h3 h4 <;> omega
  have e4 : x % 16 * 4096 + b1 % 64 * 64 + b2 % 64 < 0x10000 := by omega
  have e5 : 0xE0 + (x % 16 * 4096 + b1 % 64 * 64 + b2 % 64) / 4096 = x := by
    split_ifs at h3 h4 <;> omega
  have e6 : 0x80 + (x % 16 * 4096 + b1 % 64 * 64 + b2 % 64) / 64 % 64 = b1 := by
    split_ifs at h3 h4 <;> omega
  have e7 : 0x80 + (x % 16 * 4096 + b1 % 64 * 64 + b2 % 64) % 64 = b2 := by omega
  unfold utf8.EncodeRune
  rw [if_neg e1, if_neg e2, if_neg e3, if_pos e4, e5, e6, e7]

theorem EncodeRune_four (x b1 b2 b3 : Nat) (h1 : 0xF0 ≤ x) (h2 : x < 0xF5)
    (h3 : (if x = 0xF0 then 0x90 else 0x80) ≤ b1) (h4 : b1 ≤ (if x = 0xF4 then 0x8F else 0xBF))
    (h5 : 0x80 ≤ b2) (h6 : b2 ≤ 0xBF) (h7 : 0x80 ≤ b3) (h8 : b3 ≤ 0xBF) :
    utf8.EncodeRune (x % 8 * 262144 + b1 % 64 * 4096 + b2 % 64 * 64 + b3 % 64)
      = [UInt8.ofNat x, UInt8.ofNat b1, UInt8.ofNat b2, UInt8.ofNat b3] := by
  have e1 : ¬ (x % 8 * 262144 + b1 % 64 * 4096 + b2 % 64 * 64 + b3 % 64 < 0x80) := by
    split_ifs at h3 h4 <;> omega
  have e2 : ¬ (x % 8 * 262144 + b1 % 64 * 4096 + b2 % 64 * 64 + b3 % 64 < 0x800) := by
    split_ifs at h3 h4 <;> omega
  have e3 : ¬ (0x10FFFF < x % 8 * 262144 + b1 % 64 * 4096 + b2 % 64 * 64 + b3 % 64 ∨
      (0xD800 ≤ x % 8 * 262144 + b1 % 64 * 4096 + b2 % 64 * 64 + b3 % 64 ∧
        x % 8 * 262144 + b1 % 64 * 4096 + b2 % 64 * 64 + b3 % 64 ≤ 0xDFFF)) := by
    split_ifs at h3 h4 <;> omega
  have e4 : ¬ (x % 8 * 262144 + b1 % 64 * 4096 + b2 % 64 * 64 + b3 % 64 < 0x10000) := by
    split_ifs at h3 h4 <;> omega
  have e5 : 0xF0 + (x % 8 * 262144 + b1 % 64 * 4096 + b2 % 64 * 64 + b3 % 64) / 262144 = x := by
    split_ifs at h3 h4 <;> omega
  have e6 : 0x80 + (x % 8 * 262144 + b1 % 64 * 4096 + b2 % 64 * 64 + b3 % 64) / 4096 % 64 = b1 := by
    split_ifs at h3 h4 <;> omega
  have e7 : 0x80 + (x % 8 * 262144 + b1 % 64 * 4096 + b2 % 64 * 64 + b3 % 64) / 64 % 64 = b2 := by
    omega
  have e8 : 0x80 + (x % 8 * 262144 + b1 % 64 * 4096 + b2 % 64 * 64 + b3 % 64) % 64 = b3 := by omega
  unfold utf8.EncodeRune
  rw [if_neg e1, if_neg e2, if_neg e3, if_neg e4, e5, e6, e7, e8]

theorem isCont_iff (b : UInt8) : utf8.isCont b = true ↔ 0x80 ≤ b.toNat ∧ b.toNat ≤ 0xBF := by
  simp [utf8.isCont]

theorem EncodeRune_DecodeRune (p0 : UInt8) (rest : List UInt8)
    (hv : ¬ ((utf8.DecodeRune (p0 :: rest)).1 = utf8.RuneError ∧ (utf8.DecodeRune (p0 :: rest)).2 = 1)) :
    utf8.EncodeRune (utf8.DecodeRune (p0 :: rest)).1 ++ rest.drop ((utf8.DecodeRune (p0 :: rest)).2 - 1)
      = p0 :: rest := by
  unfold utf8.DecodeRune at hv ⊢
  simp only at hv ⊢
  by_cases c1 : p0.toNat < 0x80
  · simp only [if_pos c1] at hv ⊢
    simp [utf8.EncodeRune, c1, ofNat_toNat]
  simp only [if_neg c1] at hv ⊢
  by_cases c2 : p0.toNat < 0xC2
  · simp [if_pos c2] at hv
  simp only [if_neg c2] at hv ⊢
  by_cases c3 : p0.toNat < 0xE0
  · simp only [if_pos c3] at hv ⊢
    cases rest with
    | nil => simp at hv
    | cons b1 r1 =>
      simp only at hv ⊢
      by_cases d1 : utf8.isCont b1 = true
      · simp only [if_pos d1]
        rw [isCont_iff] at d1
        rw [EncodeRune_two _ _ (by omega) c3 d1.1 d1.2]
        simp [ofNat_toNat]
      · simp [d1] at hv
  simp only [if_neg c3] at hv ⊢
  by_cases c4 : p0.toNat < 0xF0
  · simp only [if_pos c4] at hv ⊢
    match rest with
    | [] => simp at hv
    | [_] => simp at hv
    | b1 :: b2 :: r2 =>
      simp only at hv ⊢
      by_cases d1 : ((if p0.toNat = 0xE0 then 0xA0 else 0x80) ≤ b1.toNat) ∧
          (b1.toNat ≤ (if p0.toNat = 0xED then 0x9F else 0xBF)) ∧ utf8.isCont b2 = true
      · have d2 : (decide ((if p0.toNat = 0xE0 then 0xA0 else 0x80) ≤ b1.toNat) &&
            decide (b1.toNat ≤ (if p0.toNat = 0xED then 0x9F else 0xBF)) && utf8.isCont b2) = true := by
          simp [d1.1, d1.2.1, d1.2.2]
        simp only [if_pos d2]
        obtain ⟨d3, d4, d5⟩ := d1
        rw [isCont_iff] at d5
        rw [EncodeRune_three _ _ _ (by omega) c4 d3 d4 d5.1 d5.2]
        simp [ofNat_toNat]
      · have d2 : ¬ ((decide ((if p0.toNat = 0xE0 then 0xA0 else 0x80) ≤ b1.toNat) &&
            decide (b1.toNat ≤ (if p0.toNat = 0xED then 0x9F else 0xBF)) && utf8.isCont b2) = true) := by
          simpa [and_assoc] using d1
        exact absurd ⟨by rw [if_neg d2], by rw [if_neg d2]⟩ hv
  simp only [if_neg c4] at hv ⊢
  by_cases c5 : p0.toNat < 0xF5
  · simp only [if_pos c5] at hv ⊢
    match rest with
    | [] => simp at hv
    | [_] => simp at hv
    | [_, _] => simp at hv
    | b1 :: b2 :: b3 :: r3 =>
      simp only at hv ⊢
      by_cases d1 : ((if p0.toNat = 0xF0 then 0x90 else 0x80) ≤ b1.toNat) ∧
          (b1.toNat ≤ (if p0.toNat = 0xF4 then 0x8F else 0xBF)) ∧ utf8.isCont b2 = true ∧
          utf8.isCont b3 = true
      · have d2 : (decide ((if p0.toNat = 0xF0 then 0x90 else 0x80) ≤ b1.toNat) &&
            decide (b1.toNat ≤ (if p0.toNat = 0xF4 then 0x8F else 0xBF)) && utf8.isCont b2 &&
            utf8.isCont b3) = true := by
          simp [d1.1, d1.2.1, d1.2.2.1, d1.2.2.2]
        simp only [if_pos d2]
        obtain ⟨d3, d4, d5, d6⟩ := d1
        rw [isCont_iff] at d5 d6
        rw [EncodeRune_four _ _ _ _ (by omega) c5 d3 d4 d5.1 d5.2 d6.1 d6.2]
        simp [ofNat_toNat]
      · have d2 : ¬ ((decide ((if p0.toNat = 0xF0 then 0x90 else 0x80) ≤ b1.toNat) &&
            decide (b1.toNat ≤ (if p0.toNat = 0xF4 then 0x8F else 0xBF)) && utf8.isCont b2 &&
            utf8.isCont b3) = true) := by
          simpa [and_assoc] using d1
        exact absurd ⟨by rw [if_neg d2], by rw [if_neg d2]⟩ hv
  simp [if_neg c5] at hv

theorem runes_roundtrip (fuel : Nat) (p : List UInt8) (hf : p.length ≤ fuel)
    (hv : utf8.Valid fuel p = true) :
    (utf8.runes fuel p).flatMap utf8.EncodeRune = p := by
  induction fuel generalizing p with
  | zero =>
    cases p with
    | nil => simp [utf8.runes]
    | cons a l => simp at hf
  | succ n ih =>
    cases p with
    | nil => simp [utf8.runes]
    | cons p0 rest =>
      simp only [utf8.Valid, Bool.and_eq_true, Bool.not_eq_true', Bool.and_eq_false_iff] at hv
      obtain ⟨hv1, hv2⟩ := hv
      have hd : ¬ ((utf8.DecodeRune (p0 :: rest)).1 = utf8.RuneError ∧
          (utf8.DecodeRune (p0 :: rest)).2 = 1) := by
        rintro ⟨a, b⟩
        simp [a, b] at hv1
      have hl : (rest.drop ((utf8.DecodeRune (p0 :: rest)).2 - 1)).length ≤ n := by
        simp only [List.length_drop, List.length_cons] at hf ⊢
        omega
      simp only [utf8.runes, List.flatMap_cons]
      rw [ih _ hl hv2]
      exact EncodeRune_DecodeRune p0 rest hd

section

open message

theorem decode_encodeString (s : GoString) (hv : utf8.ValidString s = true) :
    json.decodeString (utf8.runes s.length s) = s :=
  runes_roundtrip s.length s (Nat.le_refl _) hv

theorem unmarshalParameter_marshal (p : UpdatableMsgParameter)
    (h1 : utf8.ValidString p.Name = true) (h2 : utf8.ValidString p.Value = true) :
    json.unmarshalParameter (json.marshalParameter p) { Name := [], Value := [] } = some p := by
  simp [json.unmarshalParameter, json.marshalParameter, json.unmarshalParameterMember,
    json.encodeString, json.unmarshalString, decode_encodeString, h1, h2, List.foldlM]

theorem unmarshalElems_marshal (ps : List UpdatableMsgParameter)
    (h : ∀ p ∈ ps, utf8.ValidString p.Name = true ∧ utf8.ValidString p.Value = true) :
    json.unmarshalElems (ps.map json.marshalParameter) = some ps := by
  induction ps with
  | nil => rfl
  | cons p ps ih =>
    have hp := h p (List.mem_cons_self _ _)
    have ih2 := ih (fun q hq => h q (List.mem_cons_of_mem _ hq))
    simp only [List.map_cons, json.unmarshalElems, unmarshalParameter_marshal p hp.1 hp.2, ih2]

theorem decodeBody_requestBody (r : SendUpdatableMsgReq) (hi : isInt64 r.TargetState)
    (hv : json.validStrings r) : json.decodeBody (json.requestBody r) = some r := by
  obtain ⟨a, ⟨l⟩, t⟩ := r
  obtain ⟨hv1, hv2⟩ := hv
  simp only at hv1 hv2 hi
  cases l with
  | none =>
    simp [json.decodeBody, json.requestBody, json.Unmarshal, json.Marshal,
      json.unmarshalReqMember, json.zeroReq,
      json.encodeString, json.unmarshalString, decode_encodeString, hv1, List.foldlM,
      json.marshalTemplate, json.unmarshalTemplate, json.unmarshalTemplateMember,
      json.unmarshalParameterList, json.unmarshalInt, hi]
  | some ps =>
    have := unmarshalElems_marshal ps (hv2 ps rfl)
    simp [json.decodeBody, json.requestBody, json.Unmarshal, json.Marshal,
      json.unmarshalReqMember, json.zeroReq,
      json.encodeString, json.unmarshalString, decode_encodeString, hv1, List.foldlM,
      json.marshalTemplate, json.unmarshalTemplate, json.unmarshalTemplateMember,
      json.unmarshalParameterList, json.unmarshalInt, hi, this]

/-- C7, amended: for every `SendUpdatableMsgReq` (target state a 64-bit int,
parameter list nil or of any length, duplicates allowed) whose activity ID and
parameter names and values are valid UTF-8, encoding it under its field tags and
decoding the result into a fresh value succeeds and yields a value equal to the
original; so the decoded parameter list has the same length, order and pairs. -/
theorem roundTrip_valid_utf8 (r : SendUpdatableMsgReq) (hi : isInt64 r.TargetState)
    (hv : json.validStrings r) : json.roundTrip r = some r := by
  obtain ⟨a, ⟨l⟩, t⟩ := r
  obtain ⟨hv1, hv2⟩ := hv
  simp only at hv1 hv2 hi
  cases l with
  | none =>
    simp [json.roundTrip, json.Unmarshal, json.Marshal, json.unmarshalReqMember, json.zeroReq,
      json.encodeString, json.unmarshalString, decode_encodeString, hv1, List.foldlM,
      json.marshalTemplate, json.unmarshalTemplate, json.unmarshalTemplateMember,
      json.unmarshalParameterList, json.unmarshalInt, hi]
  | some ps =>
    have := unmarshalElems_marshal ps (hv2 ps rfl)
    simp [json.roundTrip, json.Unmarshal, json.Marshal, json.unmarshalReqMember, json.zeroReq,
      json.encodeString, json.unmarshalString, decode_encodeString, hv1, List.foldlM,
      json.marshalTemplate, json.unmarshalTemplate, json.unmarshalTemplateMember,
      json.unmarshalParameterList, json.unmarshalInt, hi, this]

/-- C7 at a request with three parameters, one name used twice and one value
outside ASCII. -/
theorem roundTrip_valid_utf8_witness :
    isInt64 sample.validReq.TargetState ∧ json.validStrings sample.validReq ∧
    json.roundTrip sample.validReq = some sample.validReq :=
  ⟨by decide, ⟨by decide, by decide⟩,
    roundTrip_valid_utf8 sample.validReq (by decide) ⟨by decide, by decide⟩⟩

/-- C7, the claim as written fails: a parameter value that is the byte 0xFF is
encoded as U+FFFD and decodes to the three bytes EF BF BD, so the decoded request
differs from the original. -/
theorem roundTrip_invalid_utf8_counterexample :
    isInt64 sample.invalidReq.TargetState ∧
    json.roundTrip sample.invalidReq =
      some { ActivityID := str "A1",
             TemplateInfo :=
               { ParameterList := some [{ Name := str "member_count", Value := [0xEF, 0xBF, 0xBD] }] },
             TargetState := 1 } ∧
    json.roundTrip sample.invalidReq ≠ some sample.invalidReq := by
  decide

end

/-! ## cache: the client wrapper -/

section

open cache

/-- C1, the claim as written fails: the EXISTS call reports an error together
with the count 1, and `IsExistContext` returns true. -/
theorem IsExistContext_error_counterexample :
    (sample.hookedClient.Exists [] { id := 0 } [str "k"]).2 ≠ none ∧
    (Redis.IsExistContext { ctx := { id := 0 }, conn := sample.hookedClient }
      { id := 0 } (str "k") []).1 = true := by
  decide

/-- C1, amended: for every key, context and outcome (count, err) of the EXISTS
call, `IsExistContext` returns true exactly when count > 0, whatever err is; so it
returns false whenever count is 0, which covers an absent key and an error that
leaves the count at zero. `IsExist` is `IsExistContext` with the bound context,
and one EXISTS command is issued. -/
theorem IsExistContext_eq_count_pos (r : Redis) (ctx : Context) (key : GoString) (h : History) :
    ((r.IsExistContext ctx key h).1 = true ↔ (r.conn.Exists h ctx [key]).1 > 0) ∧
    ((r.conn.Exists h ctx [key]).1 = 0 → (r.IsExistContext ctx key h).1 = false) ∧
    r.IsExist key h = r.IsExistContext r.ctx key h ∧
    (r.IsExistContext ctx key h).2 = h ++ [Event.redisExists ctx [key]] := by
  refine ⟨?_, ?_, rfl, rfl⟩
  · simp [Redis.IsExistContext]
  · intro h0
    simp [Redis.IsExistContext, h0]

/-- C2: for every key, context and outcome (result, err) of the GET command,
`GetContext` returns nil when err is non-nil and exactly result when err is nil;
its only return value is the reply, so no error reaches the caller. `Get` is
`GetContext` with the bound context, and one GET command is issued. -/
theorem GetContext_result (r : Redis) (ctx : Context) (key : GoString) (h : History) :
    ((r.conn.Do h ctx [str "GET", key]).2 ≠ none → (r.GetContext ctx key h).1 = none) ∧
    ((r.conn.Do h ctx [str "GET", key]).2 = none →
      (r.GetContext ctx key h).1 = (r.conn.Do h ctx [str "GET", key]).1) ∧
    r.Get key h = r.GetContext r.ctx key h ∧
    (r.GetContext ctx key h).2 = h ++ [Event.redisDo ctx [str "GET", key]] := by
  refine ⟨?_, ?_, rfl, ?_⟩
  · intro he
    simp only [Redis.GetContext]
    rw [if_pos he]
  · intro he
    simp only [Redis.GetContext]
    rw [if_neg (not_not.mpr he)]
  · simp only [Redis.GetContext]
    split <;> rfl

/-- C9: for every `RedisOpts` whose `IdleTimeout` is a 64-bit int, `NewRedis` and
`NewRedisOverSSH` hand the client constructor an idle timeout of `IdleTimeout`
times 1,000,000,000 nanoseconds computed in signed 64-bit arithmetic: an int64
congruent to the product modulo 2^64, and the exact product whenever that fits. -/
theorem NewRedis_IdleTimeout (env : Env) (ctx : Context) (opts : RedisOpts) (overSSH : OverSSH)
    (h : History) (hi : isInt64 opts.IdleTimeout) :
    (∃ o, (NewRedis env ctx opts h).2 = h ++ [Event.newUniversalClient o] ∧
      (NewRedis env ctx opts h).1.conn = env.NewUniversalClient h o ∧
      o.IdleTimeout = wrapInt64 (1000000000 * opts.IdleTimeout)) ∧
    (∃ o, (NewRedisOverSSH env ctx opts overSSH h).2 = h ++ [Event.newUniversalClient o] ∧
      (NewRedisOverSSH env ctx opts overSSH h).1.conn = env.NewUniversalClient h o ∧
      o.IdleTimeout = wrapInt64 (1000000000 * opts.IdleTimeout)) ∧
    isInt64 (wrapInt64 (1000000000 * opts.IdleTimeout)) ∧
    (wrapInt64 (1000000000 * opts.IdleTimeout) - 1000000000 * opts.IdleTimeout)
      % 18446744073709551616 = 0 ∧
    (isInt64 (1000000000 * opts.IdleTimeout) →
      wrapInt64 (1000000000 * opts.IdleTimeout) = 1000000000 * opts.IdleTimeout) := by
  unfold isInt64 at hi
  refine ⟨⟨_, rfl, rfl, rfl⟩, ⟨_, rfl, rfl, rfl⟩, ?_, ?_, ?_⟩
  · unfold isInt64 wrapInt64
    omega
  · unfold wrapInt64
    omega
  · unfold isInt64 wrapInt64
    omega

/-- C9 at an idle timeout of 300 seconds: 300,000,000,000 nanoseconds. -/
theorem NewRedis_IdleTimeout_witness :
    isInt64 sample.opts.IdleTimeout ∧
    (NewRedis sample.env { id := 0 } sample.opts []).2 =
      [Event.newUniversalClient
        { Addrs := [str "127.0.0.1:6379"], DB := 0, Password := [], IdleTimeout := 300000000000,
          MinIdleConns := 2, Dialer := DialerFunc.nil }] ∧
    wrapInt64 (1000000000 * sample.opts.IdleTimeout) = 300000000000 := by
  have w := NewRedis_IdleTimeout sample.env { id := 0 } sample.opts sample.gateway [] (by decide)
  exact ⟨by decide, by decide, w.2.2.2.2 (by decide)⟩

end

/-! ## cache: the tunnel dialer -/

section

open cache

theorem MakeDialer_unfold (env : Env) (s : OverSSH) (ctx : Context) (network addr : GoString)
    (h : History) :
    OverSSH.MakeDialer env s ctx network addr h =
      if (OverSSH.dialSession env s h).1.2 ≠ none then
        (DialOutcome.ret none (OverSSH.dialSession env s h).1.2, (OverSSH.dialSession env s h).2)
      else
        (env.clientDial (OverSSH.dialSession env s h).2 (OverSSH.dialSession env s h).1.1
            network addr,
          (OverSSH.dialSession env s h).2 ++
            [Event.clientDial (OverSSH.dialSession env s h).1.1 network addr]) :=
  rfl

theorem DialWithKeyFile_unfold (env : Env) (s : OverSSH) (h : History) :
    OverSSH.DialWithKeyFile env s h =
      if (env.ReadFile h s.KeyFile).2 ≠ none then
        ((none, (env.ReadFile h s.KeyFile).2), h ++ [Event.readFile s.KeyFile])
      else if (env.ParsePrivateKey (h ++ [Event.readFile s.KeyFile])
          (env.ReadFile h s.KeyFile).1).2 ≠ none then
        ((none, (env.ParsePrivateKey (h ++ [Event.readFile s.KeyFile])
            (env.ReadFile h s.KeyFile).1).2),
          h ++ [Event.readFile s.KeyFile] ++ [Event.parsePrivateKey (env.ReadFile h s.KeyFile).1])
      else
        (env.sshDial
            (h ++ [Event.readFile s.KeyFile] ++
              [Event.parsePrivateKey (env.ReadFile h s.KeyFile).1])
            (str "tcp") (sprintfHostPort s.Host s.Port)
            { User := s.Username
              Auth := [SSHAuth.PublicKeys (env.ParsePrivateKey (h ++ [Event.readFile s.KeyFile])
                (env.ReadFile h s.KeyFile).1).1]
              HostKeyCallback := HostKeyCallback.InsecureIgnoreHostKey },
          h ++ [Event.readFile s.KeyFile] ++
            [Event.parsePrivateKey (env.ReadFile h s.KeyFile).1] ++
            [Event.sshDial (str "tcp") (sprintfHostPort s.Host s.Port)
              { User := s.Username
                Auth := [SSHAuth.PublicKeys (env.ParsePrivateKey (h ++ [Event.readFile s.KeyFile])
                  (env.ReadFile h s.KeyFile).1).1]
                HostKeyCallback := HostKeyCallback.InsecureIgnoreHostKey }]) :=
  rfl

theorem dialSession_PubKeyAuth (env : Env) (s : OverSSH) (h : History)
    (hm : s.AuthMethod = PubKeyAuth) :
    OverSSH.dialSession env s h = OverSSH.DialWithKeyFile env s h := by
  unfold OverSSH.dialSession
  have hne : ¬ (s.AuthMethod = PwdAuth) := by rw [hm]; decide
  rw [if_neg hne, if_pos hm]

theorem dialSession_PwdAuth (env : Env) (s : OverSSH) (h : History)
    (hm : s.AuthMethod = PwdAuth) :
    OverSSH.dialSession env s h = OverSSH.DialWithPassword env s h := by
  unfold OverSSH.dialSession
  rw [if_pos hm]

/-- C3: with public-key authentication, when reading `KeyFile` fails, or the file
is read and parsing it fails, the dialer returns no connection and that error, and
the only calls it made are the file read (and the parse): no session
establishment and no channel open. -/
theorem MakeDialer_key_load_error (env : Env) (s : OverSSH) (ctx : Context)
    (network addr : GoString) (h : History) (hm : s.AuthMethod = PubKeyAuth)
    (hk : (env.ReadFile h s.KeyFile).2 ≠ none ∨
      (env.ParsePrivateKey (h ++ [Event.readFile s.KeyFile]) (env.ReadFile h s.KeyFile).1).2
        ≠ none) :
    ((env.ReadFile h s.KeyFile).2 ≠ none →
      OverSSH.MakeDialer env s ctx network addr h =
        (DialOutcome.ret none (env.ReadFile h s.KeyFile).2, h ++ [Event.readFile s.KeyFile])) ∧
    ((env.ReadFile h s.KeyFile).2 = none →
      OverSSH.MakeDialer env s ctx network addr h =
        (DialOutcome.ret none
            (env.ParsePrivateKey (h ++ [Event.readFile s.KeyFile])
              (env.ReadFile h s.KeyFile).1).2,
          h ++ [Event.readFile s.KeyFile] ++
            [Event.parsePrivateKey (env.ReadFile h s.KeyFile).1])) ∧
    returnsError (OverSSH.MakeDialer env s ctx network addr h).1 = true ∧
    ∃ tail, (OverSSH.MakeDialer env s ctx network addr h).2 = h ++ tail ∧
      ∀ e ∈ tail, isSSHDial e = false ∧ isClientDial e = false := by
  rw [MakeDialer_unfold, dialSession_PubKeyAuth env s h hm, DialWithKeyFile_unfold]
  by_cases hr : (env.ReadFile h s.KeyFile).2 ≠ none
  · simp only [if_pos hr]
    refine ⟨fun _ => trivial, fun h0 => absurd h0 hr, ?_, [Event.readFile s.KeyFile], rfl, ?_⟩
    · cases he : (env.ReadFile h s.KeyFile).2 with
      | none => exact absurd he hr
      | some e => rfl
    · intro e he
      simp only [List.mem_singleton] at he
      subst he
      exact ⟨rfl, rfl⟩
  · have hp : (env.ParsePrivateKey (h ++ [Event.readFile s.KeyFile])
        (env.ReadFile h s.KeyFile).1).2 ≠ none := by
      rcases hk with hk | hk
      · exact absurd hk hr
      · exact hk
    simp only [if_neg hr, if_pos hp]
    refine ⟨fun h0 => absurd h0 hr, fun _ => trivial, ?_,
      [Event.readFile s.KeyFile, Event.parsePrivateKey (env.ReadFile h s.KeyFile).1], ?_, ?_⟩
    · cases he : (env.ParsePrivateKey (h ++ [Event.readFile s.KeyFile])
          (env.ReadFile h s.KeyFile).1).2 with
      | none => exact absurd he hp
      | some e => rfl
    · simp
    · intro e he
      simp only [List.mem_cons, List.mem_singleton, List.not_mem_nil, or_false] at he
      rcases he with he | he <;> subst he <;> exact ⟨rfl, rfl⟩

/-- C3 at a gateway whose key file is missing: the dialer returns the read error
after the file read alone. -/
theorem MakeDialer_key_load_error_witness :
    sample.keyGateway.AuthMethod = PubKeyAuth ∧
    (sample.env.ReadFile [] sample.keyGateway.KeyFile).2 ≠ none ∧
    OverSSH.MakeDialer sample.env sample.keyGateway { id := 0 } (str "tcp") (str "10.0.0.5:6379") []
      = (DialOutcome.ret none (some { msg := str "no such file" }), [Event.readFile (str "/k")]) :=
  ⟨rfl, by decide,
    (MakeDialer_key_load_error sample.env sample.keyGateway { id := 0 } (str "tcp")
      (str "10.0.0.5:6379") [] rfl (Or.inl (by decide))).1 (by decide)⟩

theorem DialWithPassword_history (env : Env) (s : OverSSH) (h : History) :
    (OverSSH.DialWithPassword env s h).2 = h ++ [passwordDialEvent s] :=
  rfl

theorem dialSession_history (env : Env) (s : OverSSH) (h : History) :
    ∃ tail, (OverSSH.dialSession env s h).2 = h ++ tail ∧ ∀ e ∈ tail, isClientDial e = false := by
  unfold OverSSH.dialSession
  by_cases h1 : s.AuthMethod = PwdAuth
  · rw [if_pos h1]
    refine ⟨[passwordDialEvent s], rfl, ?_⟩
    intro e he
    simp only [List.mem_singleton] at he
    subst he
    rfl
  · rw [if_neg h1]
    by_cases h2 : s.AuthMethod = PubKeyAuth
    · rw [if_pos h2, DialWithKeyFile_unfold]
      split_ifs
      · refine ⟨[_], rfl, ?_⟩
        intro e he
        simp only [List.mem_singleton] at he
        subst he
        rfl
      · refine ⟨[_, _], by simp only [List.append_assoc]; rfl, ?_⟩
        intro e he
        simp only [List.mem_cons, List.mem_singleton, List.not_mem_nil, or_false] at he
        rcases he with he | he <;> subst he <;> rfl
      · refine ⟨[_, _, _], by simp only [List.append_assoc]; rfl, ?_⟩
        intro e he
        simp only [List.mem_cons, List.mem_singleton, List.not_mem_nil, or_false] at he
        rcases he with he | he | he <;> subst he <;> rfl
    · rw [if_neg h2]
      exact ⟨[], by simp, by simp⟩

/-- C4: with password or public-key authentication the session is established by
the method selected; when that fails the dialer returns that error and no channel
open is attempted; otherwise it returns exactly the outcome of the channel open on
that session with the network and address it was given. So it returns an error
exactly when the session establishment fails or the channel open fails. -/
theorem MakeDialer_result (env : Env) (s : OverSSH) (ctx : Context) (network addr : GoString)
    (h : History) (hm : s.AuthMethod = PwdAuth ∨ s.AuthMethod = PubKeyAuth) :
    OverSSH.dialSession env s h =
      (if s.AuthMethod = PwdAuth then OverSSH.DialWithPassword env s h
        else OverSSH.DialWithKeyFile env s h) ∧
    ((OverSSH.dialSession env s h).1.2 ≠ none →
      OverSSH.MakeDialer env s ctx network addr h =
        (DialOutcome.ret none (OverSSH.dialSession env s h).1.2, (OverSSH.dialSession env s h).2) ∧
      ∃ tail, (OverSSH.MakeDialer env s ctx network addr h).2 = h ++ tail ∧
        ∀ e ∈ tail, isClientDial e = false) ∧
    ((OverSSH.dialSession env s h).1.2 = none →
      OverSSH.MakeDialer env s ctx network addr h =
        (env.clientDial (OverSSH.dialSession env s h).2 (OverSSH.dialSession env s h).1.1
            network addr,
          (OverSSH.dialSession env s h).2 ++
            [Event.clientDial (OverSSH.dialSession env s h).1.1 network addr])) ∧
    (returnsError (OverSSH.MakeDialer env s ctx network addr h).1 = true ↔
      ((OverSSH.dialSession env s h).1.2 ≠ none ∨
        ((OverSSH.dialSession env s h).1.2 = none ∧
          returnsError (env.clientDial (OverSSH.dialSession env s h).2
            (OverSSH.dialSession env s h).1.1 network addr) = true))) := by
  have hsel : OverSSH.dialSession env s h =
      (if s.AuthMethod = PwdAuth then OverSSH.DialWithPassword env s h
        else OverSSH.DialWithKeyFile env s h) := by
    by_cases h1 : s.AuthMethod = PwdAuth
    · rw [if_pos h1, dialSession_PwdAuth env s h h1]
    · rw [if_neg h1, dialSession_PubKeyAuth env s h (hm.resolve_left h1)]
  refine ⟨hsel, ?_, ?_, ?_⟩
  · intro he
    rw [MakeDialer_unfold, if_pos he]
    exact ⟨rfl, dialSession_history env s h⟩
  · intro he
    rw [MakeDialer_unfold, if_neg (not_not.mpr he)]
  · rw [MakeDialer_unfold]
    by_cases he : (OverSSH.dialSession env s h).1.2 ≠ none
    · rw [if_pos he]
      constructor
      · intro _
        exact Or.inl he
      · intro _
        cases hx : (OverSSH.dialSession env s h).1.2 with
        | none => exact absurd hx he
        | some e => rfl
    · rw [if_neg he]
      constructor
      · intro hc
        exact Or.inr ⟨not_not.mp he, hc⟩
      · intro hc
        rcases hc with hc | hc
        · exact absurd hc he
        · exact hc.2

/-- C4 at a password gateway that accepts the session: the dialer returns the
connection of the channel opened to the given address. -/
theorem MakeDialer_result_witness :
    (sample.gateway.AuthMethod = PwdAuth ∨ sample.gateway.AuthMethod = PubKeyAuth) ∧
    OverSSH.MakeDialer sample.env sample.gateway { id := 0 } (str "tcp") (str "10.0.0.5:6379") []
      = (DialOutcome.ret (some { id := 1 }) none,
          [passwordDialEvent sample.gateway,
            Event.clientDial (some { id := 0 }) (str "tcp") (str "10.0.0.5:6379")]) :=
  ⟨Or.inl rfl,
    (MakeDialer_result sample.env sample.gateway { id := 0 } (str "tcp")
      (str "10.0.0.5:6379") [] (Or.inl rfl)).2.2.1 (by decide)⟩

theorem MakeDialer_PwdAuth (env : Env) (s : OverSSH) (ctx : Context) (network addr : GoString)
    (h : History) (hm : s.AuthMethod = PwdAuth) :
    OverSSH.MakeDialer env s ctx network addr h =
      if (OverSSH.DialWithPassword env s h).1.2 ≠ none then
        (DialOutcome.ret none (OverSSH.DialWithPassword env s h).1.2, h ++ [passwordDialEvent s])
      else
        (env.clientDial (h ++ [passwordDialEvent s]) (OverSSH.DialWithPassword env s h).1.1
            network addr,
          h ++ [passwordDialEvent s,
            Event.clientDial (OverSSH.DialWithPassword env s h).1.1 network addr]) := by
  rw [MakeDialer_unfold, dialSession_PwdAuth env s h hm, DialWithPassword_history]
  simp only [List.append_assoc, List.singleton_append]

theorem MakeDialer_PwdAuth_history (env : Env) (s : OverSSH) (ctx : Context)
    (network addr : GoString) (h : History) (hm : s.AuthMethod = PwdAuth) :
    ∃ t, (OverSSH.MakeDialer env s ctx network addr h).2 = h ++ passwordDialEvent s :: t ∧
      ∀ e ∈ t, isSSHDial e = false := by
  rw [MakeDialer_PwdAuth env s ctx network addr h hm]
  split_ifs
  · exact ⟨[], rfl, by simp⟩
  · refine ⟨[_], rfl, ?_⟩
    intro e he
    simp only [List.mem_singleton] at he
    subst he
    rfl

theorem filter_isSSHDial_eq_nil (t : List Event) (ht : ∀ e ∈ t, isSSHDial e = false) :
    t.filter isSSHDial = [] := by
  rw [List.filter_eq_nil_iff]
  intro e he
  rw [ht e he]
  decide

/-- C5: with password authentication, each invocation of the dialer issues its own
session establishment to "Host:Port" with user `Username` and the password
credential; two invocations add exactly two session establishments to the
history; and the result of the second is a function of its own session outcome
and channel-open outcome alone, the same in any world and after any earlier
calls that give it these two outcomes. -/
theorem MakeDialer_no_session_reuse (env : Env) (s : OverSSH) (ctx1 ctx2 : Context)
    (n1 a1 n2 a2 : GoString) (h : History) (hm : s.AuthMethod = PwdAuth) :
    passwordDialEvent s =
      Event.sshDial (str "tcp") (s.Host ++ str ":" ++ str (toString s.Port))
        { User := s.Username
          Auth := [SSHAuth.Password s.Password]
          HostKeyCallback := HostKeyCallback.InsecureIgnoreHostKey } ∧
    (∃ t1 t2,
      (OverSSH.MakeDialer env s ctx1 n1 a1 h).2 = h ++ passwordDialEvent s :: t1 ∧
      (OverSSH.MakeDialer env s ctx2 n2 a2 (OverSSH.MakeDialer env s ctx1 n1 a1 h).2).2 =
        (OverSSH.MakeDialer env s ctx1 n1 a1 h).2 ++ passwordDialEvent s :: t2 ∧
      (∀ e ∈ t1, isSSHDial e = false) ∧ (∀ e ∈ t2, isSSHDial e = false)) ∧
    ((OverSSH.MakeDialer env s ctx2 n2 a2 (OverSSH.MakeDialer env s ctx1 n1 a1 h).2).2.filter
        isSSHDial).length = (h.filter isSSHDial).length + 2 ∧
    (∀ (env2 : Env) (h2 : History),
      (OverSSH.DialWithPassword env2 s h2).1 =
        (OverSSH.DialWithPassword env s (OverSSH.MakeDialer env s ctx1 n1 a1 h).2).1 →
      env2.clientDial (h2 ++ [passwordDialEvent s]) (OverSSH.DialWithPassword env2 s h2).1.1 n2 a2 =
        env.clientDial ((OverSSH.MakeDialer env s ctx1 n1 a1 h).2 ++ [passwordDialEvent s])
          (OverSSH.DialWithPassword env s (OverSSH.MakeDialer env s ctx1 n1 a1 h).2).1.1 n2 a2 →
      (OverSSH.MakeDialer env2 s ctx2 n2 a2 h2).1 =
        (OverSSH.MakeDialer env s ctx2 n2 a2 (OverSSH.MakeDialer env s ctx1 n1 a1 h).2).1) := by
  obtain ⟨t1, e1, f1⟩ := MakeDialer_PwdAuth_history env s ctx1 n1 a1 h hm
  obtain ⟨t2, e2, f2⟩ := MakeDialer_PwdAuth_history env s ctx2 n2 a2
    (OverSSH.MakeDialer env s ctx1 n1 a1 h).2 hm
  refine ⟨rfl, ⟨t1, t2, e1, e2, f1, f2⟩, ?_, ?_⟩
  · have p : isSSHDial (passwordDialEvent s) = true := rfl
    rw [e2, e1]
    simp only [List.filter_append, List.filter_cons, p, if_true, filter_isSSHDial_eq_nil t1 f1,
      filter_isSSHDial_eq_nil t2 f2, List.length_append, List.length_cons, List.length_nil]
  · intro env2 h2 hs hc
    rw [MakeDialer_PwdAuth env2 s ctx2 n2 a2 h2 hm,
      MakeDialer_PwdAuth env s ctx2 n2 a2 (OverSSH.MakeDialer env s ctx1 n1 a1 h).2 hm]
    rw [hc, hs]
    split_ifs <;> rfl

/-- C5 at a password gateway, dialling two different addresses: two session
establishments, each followed by its own channel open. -/
theorem MakeDialer_no_session_reuse_witness :
    sample.gateway.AuthMethod = PwdAuth ∧
    (OverSSH.MakeDialer sample.env sample.gateway { id := 0 } (str "tcp") (str "10.0.0.6:6379")
      (OverSSH.MakeDialer sample.env sample.gateway { id := 0 } (str "tcp") (str "10.0.0.5:6379")
        []).2).2 =
      [passwordDialEvent sample.gateway,
        Event.clientDial (some { id := 0 }) (str "tcp") (str "10.0.0.5:6379"),
        passwordDialEvent sample.gateway,
        Event.clientDial (some { id := 2 }) (str "tcp") (str "10.0.0.6:6379")] ∧
    ((OverSSH.MakeDialer sample.env sample.gateway { id := 0 } (str "tcp") (str "10.0.0.6:6379")
      (OverSSH.MakeDialer sample.env sample.gateway { id := 0 } (str "tcp") (str "10.0.0.5:6379")
        []).2).2.filter isSSHDial).length = 2 :=
  ⟨rfl, by decide,
    (MakeDialer_no_session_reuse sample.env sample.gateway { id := 0 } { id := 0 } (str "tcp")
      (str "10.0.0.5:6379") (str "tcp") (str "10.0.0.6:6379") [] rfl).2.2.1⟩

theorem dialSession_other (env : Env) (s : OverSSH) (h : History)
    (h1 : s.AuthMethod ≠ PwdAuth) (h2 : s.AuthMethod ≠ PubKeyAuth) :
    OverSSH.dialSession env s h = ((none, none), h) := by
  unfold OverSSH.dialSession
  rw [if_neg h1, if_neg h2]

theorem dialSession_established (env : Env) (s : OverSSH) (h : History)
    (hm : s.AuthMethod = PwdAuth ∨ s.AuthMethod = PubKeyAuth)
    (he : (OverSSH.dialSession env s h).1.2 = none) :
    ∃ h0 config, (OverSSH.dialSession env s h).2 =
        h0 ++ [Event.sshDial (str "tcp") (sprintfHostPort s.Host s.Port) config] ∧
      env.sshDial h0 (str "tcp") (sprintfHostPort s.Host s.Port) config =
        ((OverSSH.dialSession env s h).1.1, none) := by
  rcases hm with hm | hm
  · rw [dialSession_PwdAuth env s h hm] at he ⊢
    refine ⟨h, _, rfl, ?_⟩
    exact Prod.ext rfl he
  · rw [dialSession_PubKeyAuth env s h hm, DialWithKeyFile_unfold] at he ⊢
    by_cases hr : (env.ReadFile h s.KeyFile).2 ≠ none
    · rw [if_pos hr] at he
      exact absurd he hr
    · by_cases hp : (env.ParsePrivateKey (h ++ [Event.readFile s.KeyFile])
          (env.ReadFile h s.KeyFile).1).2 ≠ none
      · rw [if_neg hr, if_pos hp] at he
        exact absurd he hp
      · rw [if_neg hr, if_neg hp] at he ⊢
        refine ⟨_, _, rfl, ?_⟩
        exact Prod.ext rfl he

/-- C10, the claim as written fails: with the zero `AuthMethod` and a library
that rejects the network "udp" before it touches the session, the dialer returns
an error pair although `AuthMethod` is neither 1 nor 2. -/
theorem MakeDialer_AuthMethod_counterexample :
    sample.zeroGateway.AuthMethod ≠ PwdAuth ∧ sample.zeroGateway.AuthMethod ≠ PubKeyAuth ∧
    OverSSH.MakeDialer sample.udpEnv sample.zeroGateway { id := 0 } (str "udp")
        (str "10.0.0.5:6379") [] =
      (DialOutcome.ret none (some { msg := str "ssh: unsupported protocol: udp" }),
        [Event.clientDial none (str "udp") (str "10.0.0.5:6379")]) := by
  decide

/-- C10, amended: when `AuthMethod` is neither `PwdAuth` nor `PubKeyAuth`, the
dialer makes one call only, the channel open on a nil session, and its outcome is
the outcome of that call: no session establishment, no key-file read, and the
error return is not taken. With `AuthMethod` 1 or 2, a channel open appears among
the calls only right after a session establishment that returned no error, on the
session it returned. So wherever the channel open on a nil session panics, the
dialer returns a connection-or-error pair only under `AuthMethod` 1 or 2. -/
theorem MakeDialer_AuthMethod_precondition (env : Env) (s : OverSSH) (ctx : Context)
    (network addr : GoString) (h : History) :
    (s.AuthMethod ≠ PwdAuth → s.AuthMethod ≠ PubKeyAuth →
      OverSSH.MakeDialer env s ctx network addr h =
        (env.clientDial h none network addr, h ++ [Event.clientDial none network addr])) ∧
    (s.AuthMethod = PwdAuth ∨ s.AuthMethod = PubKeyAuth →
      ∀ t, (OverSSH.MakeDialer env s ctx network addr h).2 = h ++ t →
        (∃ e ∈ t, isClientDial e = true) →
        ∃ h0 config c,
          env.sshDial h0 (str "tcp") (sprintfHostPort s.Host s.Port) config = (c, none) ∧
          OverSSH.MakeDialer env s ctx network addr h =
            (env.clientDial
                (h0 ++ [Event.sshDial (str "tcp") (sprintfHostPort s.Host s.Port) config])
                c network addr,
              h0 ++ [Event.sshDial (str "tcp") (sprintfHostPort s.Host s.Port) config] ++
                [Event.clientDial c network addr])) ∧
    (env.clientDial h none network addr = DialOutcome.panic →
      ∀ c e, (OverSSH.MakeDialer env s ctx network addr h).1 = DialOutcome.ret c e →
        s.AuthMethod = PwdAuth ∨ s.AuthMethod = PubKeyAuth) := by
  have hA : s.AuthMethod ≠ PwdAuth → s.AuthMethod ≠ PubKeyAuth →
      OverSSH.MakeDialer env s ctx network addr h =
        (env.clientDial h none network addr, h ++ [Event.clientDial none network addr]) := by
    intro h1 h2
    rw [MakeDialer_unfold, dialSession_other env s h h1 h2]
    rfl
  refine ⟨hA, ?_, ?_⟩
  · intro hm t ht hex
    by_cases he : (OverSSH.dialSession env s h).1.2 ≠ none
    · exfalso
      rw [MakeDialer_unfold, if_pos he] at ht
      obtain ⟨t0, e0, f0⟩ := dialSession_history env s h
      have ht0 : t0 = t := List.append_cancel_left (e0.symm.trans ht)
      obtain ⟨e, hmem, hcd⟩ := hex
      rw [f0 e (ht0 ▸ hmem)] at hcd
      exact Bool.false_ne_true hcd
    · have he2 := not_not.mp he
      obtain ⟨h0, config, e0, f0⟩ := dialSession_established env s h hm he2
      refine ⟨h0, config, (OverSSH.dialSession env s h).1.1, f0, ?_⟩
      rw [MakeDialer_unfold, if_neg he, e0]
  · intro hp c e hr
    by_cases h1 : s.AuthMethod = PwdAuth
    · exact Or.inl h1
    · by_cases h2 : s.AuthMethod = PubKeyAuth
      · exact Or.inr h2
      · exfalso
        have hr2 : env.clientDial h none network addr = DialOutcome.ret c e := by
          rw [hA h1 h2] at hr
          exact hr
        rw [hp] at hr2
        cases hr2

/-- C10 at the zero value of `AuthMethod`: the dialer goes straight to the channel
open on a nil session, which here panics. -/
theorem MakeDialer_AuthMethod_precondition_witness :
    sample.zeroGateway.AuthMethod ≠ PwdAuth ∧ sample.zeroGateway.AuthMethod ≠ PubKeyAuth ∧
    OverSSH.MakeDialer sample.env sample.zeroGateway { id := 0 } (str "tcp") (str "10.0.0.5:6379") []
      = (DialOutcome.panic, [Event.clientDial none (str "tcp") (str "10.0.0.5:6379")]) :=
  ⟨by decide, by decide,
    (MakeDialer_AuthMethod_precondition sample.env sample.zeroGateway { id := 0 } (str "tcp")
      (str "10.0.0.5:6379") []).1 (by decide) (by decide)⟩

end

/-! ## message: the updatable-message client -/

section

open message

theorem CreateActivityID_unfold (env : message.Env) (h : message.History) :
    CreateActivityID env h =
      if (env.GetAccessToken h).2 ≠ none then
        ((CreateActivityIDResponse.zero, (env.GetAccessToken h).2), h ++ [message.Event.GetAccessToken])
      else if (env.HTTPGet (h ++ [message.Event.GetAccessToken])
          (sprintfS createActivityURL (env.GetAccessToken h).1)).2 ≠ none then
        ((CreateActivityIDResponse.zero,
            (env.HTTPGet (h ++ [message.Event.GetAccessToken])
              (sprintfS createActivityURL (env.GetAccessToken h).1)).2),
          h ++ [message.Event.GetAccessToken] ++
            [message.Event.HTTPGet (sprintfS createActivityURL (env.GetAccessToken h).1)])
      else
        (env.DecodeWithError
            (h ++ [message.Event.GetAccessToken] ++
              [message.Event.HTTPGet (sprintfS createActivityURL (env.GetAccessToken h).1)])
            (env.HTTPGet (h ++ [message.Event.GetAccessToken])
              (sprintfS createActivityURL (env.GetAccessToken h).1)).1
            CreateActivityIDResponse.zero (str "CreateActivityID"),
          h ++ [message.Event.GetAccessToken] ++
            [message.Event.HTTPGet (sprintfS createActivityURL (env.GetAccessToken h).1)] ++
            [message.Event.DecodeWithError
              (env.HTTPGet (h ++ [message.Event.GetAccessToken])
                (sprintfS createActivityURL (env.GetAccessToken h).1)).1
              (str "CreateActivityID")]) :=
  rfl

theorem SetUpdatableMsg_unfold (env : message.Env) (activityID : GoString)
    (targetState : UpdatableTargetState) (template : UpdatableMsgTemplate) (h : message.History) :
    SetUpdatableMsg env activityID targetState template h =
      if (env.GetAccessToken h).2 ≠ none then
        ((env.GetAccessToken h).2, h ++ [message.Event.GetAccessToken])
      else if (env.PostJSON (h ++ [message.Event.GetAccessToken])
          (sprintfS setUpdatableMsgURL (env.GetAccessToken h).1)
          { ActivityID := activityID, TemplateInfo := template, TargetState := targetState }).2
            ≠ none then
        ((env.PostJSON (h ++ [message.Event.GetAccessToken])
            (sprintfS setUpdatableMsgURL (env.GetAccessToken h).1)
            { ActivityID := activityID, TemplateInfo := template, TargetState := targetState }).2,
          h ++ [message.Event.GetAccessToken] ++
            [message.Event.PostJSON (sprintfS setUpdatableMsgURL (env.GetAccessToken h).1)
              { ActivityID := activityID, TemplateInfo := template, TargetState := targetState }])
      else
        (env.DecodeWithCommonError
            (h ++ [message.Event.GetAccessToken] ++
              [message.Event.PostJSON (sprintfS setUpdatableMsgURL (env.GetAccessToken h).1)
                { ActivityID := activityID, TemplateInfo := template,
                  TargetState := targetState }])
            (env.PostJSON (h ++ [message.Event.GetAccessToken])
              (sprintfS setUpdatableMsgURL (env.GetAccessToken h).1)
              { ActivityID := activityID, TemplateInfo := template,
                TargetState := targetState }).1
            (str "SendUpdatableMsg"),
          h ++ [message.Event.GetAccessToken] ++
            [message.Event.PostJSON (sprintfS setUpdatableMsgURL (env.GetAccessToken h).1)
              { ActivityID := activityID, TemplateInfo := template, TargetState := targetState }] ++
            [message.Event.DecodeWithCommonError
              (env.PostJSON (h ++ [message.Event.GetAccessToken])
                (sprintfS setUpdatableMsgURL (env.GetAccessToken h).1)
                { ActivityID := activityID, TemplateInfo := template,
                  TargetState := targetState }).1
              (str "SendUpdatableMsg")]) :=
  rfl

/-- C6, the claim as written fails: for the activity ID that is the single byte
0xFF the posted body carries U+FFFD under `activity_id`, which reads back as the
bytes EF BF BD and not as the given ID. -/
theorem SetUpdatableMsg_body_counterexample :
    (sample.msgEnv.GetAccessToken []).2 = none ∧
    (SetUpdatableMsg sample.msgEnv [0xFF] TargetStateStarted { ParameterList := none } []).2 =
      [message.Event.GetAccessToken,
        message.Event.PostJSON (sprintfS setUpdatableMsgURL (str "TOKEN"))
          { ActivityID := [0xFF], TemplateInfo := { ParameterList := none }, TargetState := 1 },
        message.Event.DecodeWithCommonError (str "{}") (str "SendUpdatableMsg")] ∧
    json.decodeBody (json.requestBody
        { ActivityID := [0xFF], TemplateInfo := { ParameterList := none }, TargetState := 1 }) =
      some { ActivityID := [0xEF, 0xBF, 0xBD], TemplateInfo := { ParameterList := none },
             TargetState := 1 } ∧
    (json.decodeBody (json.requestBody
        { ActivityID := [0xFF], TemplateInfo := { ParameterList := none },
          TargetState := 1 })).map (fun r => r.ActivityID) ≠ some [0xFF] := by
  decide

/-- C6, amended: for every activity ID and template whose strings are valid UTF-8
and every target state (any 64-bit int), when the token fetch succeeds
`SetUpdatableMsg` issues, right after the token fetch, one POST of an object
made of the three arguments unchanged, nothing being checked or rejected before
it; its body has `activity_id`, `template_info` and `target_state` encoded from
them in this order, and reads back as exactly the given ID, template and state. -/
theorem SetUpdatableMsg_posted_body (env : message.Env) (activityID : GoString)
    (targetState : UpdatableTargetState) (template : UpdatableMsgTemplate) (h : message.History)
    (ht : (env.GetAccessToken h).2 = none) (hi : isInt64 targetState)
    (hv : json.validStrings
      { ActivityID := activityID, TemplateInfo := template, TargetState := targetState }) :
    ∃ obj t,
      (SetUpdatableMsg env activityID targetState template h).2 =
        h ++ message.Event.GetAccessToken ::
          message.Event.PostJSON (sprintfS setUpdatableMsgURL (env.GetAccessToken h).1) obj :: t ∧
      obj.ActivityID = activityID ∧ obj.TargetState = targetState ∧
      obj.TemplateInfo = template ∧
      json.requestBody obj =
        json.Value.object [("activity_id", json.encodeString activityID),
          ("template_info", json.marshalTemplate template),
          ("target_state", json.Value.number targetState)] ∧
      json.decodeBody (json.requestBody obj) =
        some { ActivityID := activityID, TemplateInfo := template, TargetState := targetState } ∧
      (t = [] ∨
        ∃ response, t = [message.Event.DecodeWithCommonError response (str "SendUpdatableMsg")]) := by
  have hb := decodeBody_requestBody
    { ActivityID := activityID, TemplateInfo := template, TargetState := targetState } hi hv
  rw [SetUpdatableMsg_unfold, if_neg (not_not.mpr ht)]
  split_ifs
  · exact ⟨{ ActivityID := activityID, TemplateInfo := template, TargetState := targetState }, [],
      by simp only [List.append_assoc]; rfl, rfl, rfl, rfl, rfl, hb, Or.inl rfl⟩
  · exact ⟨{ ActivityID := activityID, TemplateInfo := template, TargetState := targetState }, [_],
      by simp only [List.append_assoc]; rfl, rfl, rfl, rfl, rfl, hb, Or.inr ⟨_, rfl⟩⟩

/-- C6 at `TargetStateStarted`: the posted body reads back as the given activity
ID, the given parameter and target state 1. -/
theorem SetUpdatableMsg_posted_body_witness :
    (sample.msgEnv.GetAccessToken []).2 = none ∧ isInt64 TargetStateStarted ∧
    ∃ obj t,
      (SetUpdatableMsg sample.msgEnv (str "A1") TargetStateStarted
        { ParameterList := some [{ Name := str "member_count", Value := str "2" }] } []).2 =
          [] ++ message.Event.GetAccessToken ::
            message.Event.PostJSON
              (sprintfS setUpdatableMsgURL (sample.msgEnv.GetAccessToken []).1) obj :: t ∧
      obj.ActivityID = str "A1" ∧ obj.TargetState = 1 ∧
      obj.TemplateInfo =
        { ParameterList := some [{ Name := str "member_count", Value := str "2" }] } ∧
      json.requestBody obj =
        json.Value.object [("activity_id", json.encodeString (str "A1")),
          ("template_info", json.marshalTemplate
            { ParameterList := some [{ Name := str "member_count", Value := str "2" }] }),
          ("target_state", json.Value.number 1)] ∧
      json.decodeBody (json.requestBody obj) =
        some { ActivityID := str "A1",
               TemplateInfo :=
                 { ParameterList := some [{ Name := str "member_count", Value := str "2" }] },
               TargetState := 1 } ∧
      (t = [] ∨
        ∃ response, t = [message.Event.DecodeWithCommonError response (str "SendUpdatableMsg")]) :=
  ⟨rfl, by decide, SetUpdatableMsg_posted_body sample.msgEnv (str "A1") TargetStateStarted
    { ParameterList := some [{ Name := str "member_count", Value := str "2" }] } [] rfl
    (by decide) ⟨by decide, by decide⟩⟩

/-- C8: when the token fetch fails, `CreateActivityID` and `SetUpdatableMsg` return
that error and the token fetch is the only call made; when the token fetch
succeeds and the GET (resp. POST) fails, they return that error and no decode
follows. In both cases `CreateActivityID` returns the zero response. -/
theorem token_and_http_errors_returned (env : message.Env) (activityID : GoString)
    (targetState : UpdatableTargetState) (template : UpdatableMsgTemplate) (h : message.History) :
    ((env.GetAccessToken h).2 ≠ none →
      CreateActivityID env h =
        ((CreateActivityIDResponse.zero, (env.GetAccessToken h).2), h ++ [message.Event.GetAccessToken]) ∧
      SetUpdatableMsg env activityID targetState template h =
        ((env.GetAccessToken h).2, h ++ [message.Event.GetAccessToken])) ∧
    ((env.GetAccessToken h).2 = none →
      (env.HTTPGet (h ++ [message.Event.GetAccessToken])
        (sprintfS createActivityURL (env.GetAccessToken h).1)).2 ≠ none →
      CreateActivityID env h =
        ((CreateActivityIDResponse.zero,
            (env.HTTPGet (h ++ [message.Event.GetAccessToken])
              (sprintfS createActivityURL (env.GetAccessToken h).1)).2),
          h ++ [message.Event.GetAccessToken,
            message.Event.HTTPGet (sprintfS createActivityURL (env.GetAccessToken h).1)])) ∧
    ((env.GetAccessToken h).2 = none →
      (env.PostJSON (h ++ [message.Event.GetAccessToken])
        (sprintfS setUpdatableMsgURL (env.GetAccessToken h).1)
        { ActivityID := activityID, TemplateInfo := template, TargetState := targetState }).2
          ≠ none →
      SetUpdatableMsg env activityID targetState template h =
        ((env.PostJSON (h ++ [message.Event.GetAccessToken])
            (sprintfS setUpdatableMsgURL (env.GetAccessToken h).1)
            { ActivityID := activityID, TemplateInfo := template, TargetState := targetState }).2,
          h ++ [message.Event.GetAccessToken,
            message.Event.PostJSON (sprintfS setUpdatableMsgURL (env.GetAccessToken h).1)
              { ActivityID := activityID, TemplateInfo := template,
                TargetState := targetState }])) ∧
    CreateActivityIDResponse.zero.ActivityID = [] ∧
    CreateActivityIDResponse.zero.ExpirationTime = 0 := by
  refine ⟨?_, ?_, ?_, rfl, rfl⟩
  · intro he
    rw [CreateActivityID_unfold, SetUpdatableMsg_unfold, if_pos he, if_pos he]
    exact ⟨rfl, rfl⟩
  · intro he hg
    rw [CreateActivityID_unfold, if_neg (not_not.mpr he), if_pos hg]
    simp only [List.append_assoc]
    rfl
  · intro he hg
    rw [SetUpdatableMsg_unfold, if_neg (not_not.mpr he), if_pos hg]
    simp only [List.append_assoc]
    rfl

/-- C8 at a failing token provider: both operations return its error after the
token fetch alone. -/
theorem token_and_http_errors_returned_witness :
    CreateActivityID sample.noTokenEnv [] =
      (({ CommonError := { ErrCode := 0, ErrMsg := [] }, ActivityID := [], ExpirationTime := 0 },
          some { msg := str "token expired" }), [message.Event.GetAccessToken]) ∧
    SetUpdatableMsg sample.noTokenEnv (str "A1") TargetStateStarted { ParameterList := none } [] =
      (some { msg := str "token expired" }, [message.Event.GetAccessToken]) :=
  (token_and_http_errors_returned sample.noTokenEnv (str "A1") TargetStateStarted
    { ParameterList := none } []).1 (by decide)

end

end Wechat
